import Mathlib

/-!
# Verification of the LiveSplit.LittleKittyBigCity autosplitter core

Shallow embedding of the autosplitter's decision core, translated from the
repository's Rust sources:

* `src/src/lib.rs` — settings, watcher set, `update_loop`, and the decision
  functions `start`, `split`, `reset`, `is_loading` (the crate root; it is the
  compiled implementation — `lib.rs` declares only the modules `csharp`,
  `mono` and `scene_manager`, so the files `autosplitting.rs`, `memory.rs`,
  `settings.rs` and `process.rs` are unreferenced duplicates).
* `src/src/csharp.rs` — `CSharpList::iter`, the length-prefixed managed-list
  reader.
* `src/src/scene_manager.rs` — `SceneManager::attach`, the signature-scan
  based locator of the Unity scene manager.

Remote process reads are modelled as explicit oracles (`Option`-valued
functions supplied in an environment record): a `none` result is a failed
read, mirroring the `Result::ok()` / `Option` plumbing of the source.
-/

namespace LKBC

/-- Modelled from the spec: the watcher pair of the external `asr` crate
(referenced by the code but not among the repository's files). Spec §3 and
§4.5: a previous/current snapshot holder; a pair exists only after the first
update, and no transition is ever reported on the very first population. -/
structure Pair (T : Type) where
  old : T
  current : T
deriving DecidableEq

/-- Modelled from the spec: `WatcherState<T>` (spec §4.5); `pair` is `none`
before the first successful update, mirroring `asr::watcher::Watcher`
as used by `lib.rs` (`watcher.pair.is_some_and(..)`). -/
structure Watcher (T : Type) where
  pair : Option (Pair T) := none
deriving DecidableEq

/-- Modelled from the spec (§4.5): `changed_to(target)` is true iff the
current value equals `target` and the old value does not. -/
def Pair.changed_to {T : Type} [BEq T] (p : Pair T) (value : T) : Bool :=
  p.old != value && p.current == value

/-- Modelled from the spec (§4.5): `update(new_value)` shifts current into
old and installs `new_value` as current; the very first update populates
both slots with the new value, so that `changed_to` cannot fire on the very
first population (spec §3 invariant). -/
def Watcher.update_infallible {T : Type} (w : Watcher T) (value : T) : Watcher T :=
  match w.pair with
  | none => { pair := some { old := value, current := value } }
  | some p => { pair := some { old := p.current, current := value } }

/-- `watcher.pair.is_some_and(|val| val.changed_to(&value))`, the idiom used
throughout `lib.rs` for "the watcher transitioned to `value` this tick". -/
def pair_changed_to {T : Type} [BEq T] (w : Watcher T) (value : T) : Bool :=
  w.pair.any fun val => val.changed_to value

/-- `QuestData` from `src/src/lib.rs`: the id and completion flag extracted
from one element record of a quest/achievement list. -/
structure QuestData where
  quest_id : Nat
  complete : Bool
deriving DecidableEq

/-- `Settings` from `src/src/lib.rs`: the boolean toggles, with the source's
`#[default = ..]` values as field defaults (`Title` fields are UI headers
only and carry no data). -/
structure Settings where
  start : Bool := true
  eat_fish : Bool := true
  got_home : Bool := true
  find_crow : Bool := true
  bring_crow_25_shinies : Bool := true
  become_artist : Bool := true
  catch_a_bird : Bool := true
  help_mayor : Bool := true
  rescue_tanuki : Bool := true
  reunite_the_family : Bool := true
  fetch_3_feathers : Bool := true
  pose_for_beetle : Bool := true
  fetch_dog_balls : Bool := true
  find_chameleon_1 : Bool := true
  find_chameleon_2 : Bool := true
  find_chameleon_3 : Bool := true
  find_chameleon_4 : Bool := true
  find_chameleon_5 : Bool := true
  find_chameleon_6 : Bool := true
  find_chameleon_7 : Bool := true
  find_chameleon_8 : Bool := true
  steal_lunch : Bool := true
  catch_yellow_bird : Bool := true
  sunbeam : Bool := true
  hello_everyone : Bool := false
  quack_troops : Bool := false
  snap_happy : Bool := false
  capped_crusader : Bool := false
  world_traveler : Bool := false
  cat_napper : Bool := false
  bird_botherer : Bool := false
  if_i_fits_i_sits : Bool := false
  litter_picker : Bool := false
  smash_hit : Bool := false
  sticky_business : Bool := false
  give_a_dog_a_bone : Bool := false
  cult_of_purrsonality : Bool := false
  local_celebrity : Bool := false
  papa_cat_zi : Bool := false
  cat_like_reflexes : Bool := false
  back_of_the_net : Bool := false
  surprise : Bool := false
  fruit_fall : Bool := false
  industrial_artist : Bool := false
  checkmate : Bool := false
  to_me_to_you : Bool := false
  no_parking : Bool := false
  rub_a_dub_dub : Bool := false
  and_stay_out : Bool := false
  killer_kitty : Bool := false
  who_needs_cash : Bool := false
  little_kitty_big_city : Bool := false
  cant_stop_the_feelings : Bool := false
  what_sweet_music : Bool := false
  trip_hazard : Bool := false
  splish : Bool := false
  decluttering : Bool := false
  dumpster_diving : Bool := false
deriving DecidableEq

/-- `Watchers` from `src/src/lib.rs` (`#[derive(Default)]`: every watcher
begins with no populated pair). -/
structure Watchers where
  start_trigger : Watcher Bool := {}
  end_trigger : Watcher Bool := {}
  is_loading : Watcher Bool := {}
  quest_list : Watcher (List QuestData) := {}
  quest_secondary_list : Watcher (List QuestData) := {}
  is_post_eating : Watcher Bool := {}
  allow_player_shake : Watcher Bool := {}
deriving DecidableEq

/-- The `match quest_id` table of the primary quest-list block of `split`
(`src/src/lib.rs` lines 511–534): which toggle governs a given quest id. -/
def quest_list_setting (settings : Settings) (quest_id : Nat) : Bool :=
  match quest_id with
  | 8 => settings.catch_a_bird
  | 12 => settings.fetch_dog_balls
  | 19 => settings.bring_crow_25_shinies
  | 21 => settings.rescue_tanuki
  | 24 => settings.fetch_3_feathers
  | 28 => settings.reunite_the_family
  | 29 => settings.help_mayor
  | 32 => settings.find_crow
  | 34 => settings.become_artist
  | 36 => settings.find_chameleon_1
  | 37 => settings.find_chameleon_2
  | 38 => settings.find_chameleon_3
  | 39 => settings.sunbeam
  | 49 => settings.pose_for_beetle
  | 41 => settings.find_chameleon_4
  | 42 => settings.find_chameleon_5
  | 43 => settings.find_chameleon_6
  | 44 => settings.find_chameleon_7
  | 45 => settings.find_chameleon_8
  | 47 => settings.steal_lunch
  | 56 => settings.catch_yellow_bird
  | _ => false

/-- The `match quest_id` table of the secondary (cat-chievement) block of
`split` (`src/src/lib.rs` lines 561–597). -/
def catchievement_setting (settings : Settings) (quest_id : Nat) : Bool :=
  match quest_id with
  | 1 => settings.hello_everyone
  | 2 => settings.quack_troops
  | 3 => settings.snap_happy
  | 7 => settings.capped_crusader
  | 8 => settings.world_traveler
  | 9 => settings.cat_napper
  | 10 => settings.bird_botherer
  | 11 => settings.if_i_fits_i_sits
  | 12 => settings.litter_picker
  | 13 => settings.smash_hit
  | 14 => settings.sticky_business
  | 15 => settings.give_a_dog_a_bone
  | 16 => settings.cult_of_purrsonality
  | 17 => settings.local_celebrity
  | 19 => settings.papa_cat_zi
  | 23 => settings.cat_like_reflexes
  | 24 => settings.back_of_the_net
  | 26 => settings.surprise
  | 27 => settings.fruit_fall
  | 30 => settings.industrial_artist
  | 31 => settings.checkmate
  | 32 => settings.to_me_to_you
  | 33 => settings.no_parking
  | 34 => settings.rub_a_dub_dub
  | 36 => settings.and_stay_out
  | 37 => settings.killer_kitty
  | 38 => settings.who_needs_cash
  | 39 => settings.little_kitty_big_city
  | 41 => settings.cant_stop_the_feelings
  | 42 => settings.what_sweet_music
  | 43 => settings.trip_hazard
  | 44 => settings.splish
  | 45 => settings.decluttering
  | 46 => settings.dumpster_diving
  | _ => false

/-- `quest.old.iter().find(|val| val.quest_id == quest_id).map(|val| val.complete)`
from the `split` loops of `src/src/lib.rs`. -/
def old_complete (old : List QuestData) (quest_id : Nat) : Option Bool :=
  (old.find? fun val => val.quest_id == quest_id).map QuestData.complete

/-- `old.is_some_and(|val| !val)` from the `split` loops. -/
def is_some_and_not : Option Bool → Bool
  | some val => !val
  | none => false

/-- The `for i in &quest.current { .. break .. }` loop shared (verbatim apart
from the toggle table) by the primary and secondary blocks of `split`
(`src/src/lib.rs` lines 504–552 and 554–615): walk the current snapshot in
order; at the first element whose toggle is enabled, whose old completion
flag was present and false, and whose current flag is true, stop with
`true`; otherwise `false`. -/
def quest_split_loop (split_setting : Nat → Bool) (old : List QuestData) :
    List QuestData → Bool
  | [] => false
  | i :: rest =>
    if split_setting i.quest_id then
      if is_some_and_not (old_complete old i.quest_id) && i.complete then true
      else quest_split_loop split_setting old rest
    else quest_split_loop split_setting old rest

/-- `split` from `src/src/lib.rs` lines 497–624. -/
def split (watchers : Watchers) (settings : Settings) : Bool :=
  let end_trigger := settings.got_home && pair_changed_to watchers.end_trigger true
  let quest_list :=
    match watchers.quest_list.pair with
    | some quest => quest_split_loop (quest_list_setting settings) quest.old quest.current
    | none => false
  let catchievements :=
    match watchers.quest_secondary_list.pair with
    | some quest => quest_split_loop (catchievement_setting settings) quest.old quest.current
    | none => false
  let post_eating := settings.eat_fish && pair_changed_to watchers.is_post_eating true
  end_trigger || quest_list || catchievements || post_eating

/-- `start` from `src/src/lib.rs` lines 489–495. -/
def start (watchers : Watchers) (settings : Settings) : Bool :=
  settings.start && pair_changed_to watchers.start_trigger true

/-- `reset` from `src/src/lib.rs` lines 626–628. -/
def reset (_watchers : Watchers) (_settings : Settings) : Bool :=
  false

/-- `is_loading` from `src/src/lib.rs` lines 630–632
(`Some(watchers.is_loading.pair.is_some_and(|val| val.eq(&true)))`; the
`Pair` derefs to its current value). -/
def is_loading (watchers : Watchers) (_settings : Settings) : Option Bool :=
  some (watchers.is_loading.pair.any fun val => val.current == true)

/-- `game_time` from `src/src/lib.rs` lines 634–636: never an override. -/
def game_time (_watchers : Watchers) (_settings : Settings) : Option Int :=
  none

/-- Modelled from the spec: `asr::game_engine::unity::get_scene_name`
(referenced by the code but not among the repository's files) — the file
name of a scene path: the text after the last path separator and before the
first dot. -/
def get_scene_name (scene_path : String) : String :=
  (((scene_path.splitOn "/").getLastD "").splitOn ".").headD ""

/-- `deref::<u8>(..).is_some_and(|val| val != 0)`, the read-a-byte-flag idiom
of `update_loop`; a failed read (`none`) degrades to `false`. -/
def read_nonzero (val : Option Nat) : Bool :=
  val.any fun v => v != 0

/-- One tick's raw remote reads as consumed by `update_loop`
(`src/src/lib.rs` lines 404–487): each field is the result of the
corresponding `deref`/read pipeline, `none` meaning the read failed or a
pointer on the path was unresolved. The two list fields hold the collected
`QuestData` records of a successful `CSharpList` dereference. -/
structure TickInput where
  current_scene : Option String
  post_eat : Option Nat
  trashcan_allow_shake : Option Nat
  is_outro : Option Nat
  is_loading_save : Option Nat
  is_teleporting : Option Nat
  quest_list : Option (List QuestData)
  quest_secondary_list : Option (List QuestData)

/-- `update_loop` from `src/src/lib.rs` lines 404–487, in source order:
`is_post_eating` and `allow_player_shake` are updated first, and the
`start_trigger` value reads the already-updated `allow_player_shake` pair;
a failed quest-list dereference degrades to the empty vector. -/
def update_loop (inp : TickInput) (watchers : Watchers) : Watchers :=
  let is_post_eating := watchers.is_post_eating.update_infallible (read_nonzero inp.post_eat)
  let allow_player_shake :=
    watchers.allow_player_shake.update_infallible (read_nonzero inp.trashcan_allow_shake)
  let start_trigger := watchers.start_trigger.update_infallible
    ((inp.current_scene.any fun scene => get_scene_name scene == "Level_X") &&
      pair_changed_to allow_player_shake true)
  let end_trigger := watchers.end_trigger.update_infallible (read_nonzero inp.is_outro)
  let is_loading := watchers.is_loading.update_infallible
    ((inp.current_scene.any fun scene =>
        get_scene_name scene == "Loading" || get_scene_name scene == "MainMenu_LKBC") ||
      read_nonzero inp.is_loading_save || read_nonzero inp.is_teleporting)
  let quest_list := watchers.quest_list.update_infallible (inp.quest_list.getD [])
  let quest_secondary_list :=
    watchers.quest_secondary_list.update_infallible (inp.quest_secondary_list.getD [])
  { start_trigger := start_trigger
    end_trigger := end_trigger
    is_loading := is_loading
    quest_list := quest_list
    quest_secondary_list := quest_secondary_list
    is_post_eating := is_post_eating
    allow_player_shake := allow_player_shake }

/-- The list header fields `CSharpList::iter` extracts from the `[u8; 0x1C]`
bytes it reads at the list address (`src/src/csharp.rs` lines 27–36): the
`Address64` at byte offset 0x10 (the element-array pointer) and the `u32` at
byte offset 0x18 (the element count). -/
structure ListHeader where
  data_pointer : Nat
  count : Nat
deriving DecidableEq

/-- The remote-read oracle consumed by `CSharpList::iter`: `read_header` is
`process.read::<[u8; 0x1C]>` (already split into the two fields `iter`
extracts), `read_vec` is `process.read_vec::<Address64>` (on success it
yields exactly the requested number of pointer slots), `read_elem` is the
per-element `process.read`; `none` is a failed read. -/
structure ProcessModel (T : Type) where
  read_header : Nat → Option ListHeader
  read_vec : Nat → Nat → Option (List Nat)
  read_elem : Nat → Option T

/-- `CSharpList` from `src/src/csharp.rs`: a remote `List<T>` reference. -/
structure CSharpList where
  address : Nat

/-- `CSharpList::iter` from `src/src/csharp.rs` lines 26–50: read the 0x1C
header bytes, keep the element-array pointer only if non-null and the count
only if non-zero, bulk-read `count` pointer slots at offset 0x20 past the
array header, then for each index read the element record at the pointed-to
address, silently dropping any element whose read fails. A total function:
every failure path degrades to the empty sequence. -/
def CSharpList.iter {T : Type} (self : CSharpList) (process : ProcessModel T) : List T :=
  let raw_data := process.read_header self.address
  let data_pointer :=
    Option.filter (fun val => val != 0) (raw_data.map ListHeader.data_pointer)
  let count := Option.filter (fun val => val != 0) (raw_data.map ListHeader.count)
  let elements :=
    match data_pointer, count with
    | some data_pointer, some count => process.read_vec (data_pointer + 0x20) count
    | _, _ => none
  (List.range (count.getD 0)).filterMap fun val =>
    elements.bind fun element => (element.get? val).bind process.read_elem

/-- `PointerSize` of the `asr` crate as used by `SceneManager::attach`. -/
inductive PointerSize
  | bit32
  | bit64
deriving DecidableEq

/-- `pe::MachineType` as used by `SceneManager::attach`: only the x86-64
marker selects 64-bit pointers, anything else selects 32-bit. -/
inductive MachineType
  | x86_64
  | other
deriving DecidableEq

/-- `Offsets` from `src/src/scene_manager.rs` lines 96–114. -/
structure Offsets where
  active_scene : Nat
  asset_path : Nat
deriving DecidableEq

/-- `Offsets::new` from `src/src/scene_manager.rs` lines 101–113. -/
def Offsets.new : PointerSize → Offsets
  | .bit64 => { active_scene := 0x48, asset_path := 0x10 }
  | .bit32 => { active_scene := 0x28, asset_path := 0xC }

/-- `SceneManager` from `src/src/scene_manager.rs` lines 11–15: the cached
pointer width, dereferenced base address and offsets. -/
structure SceneManager where
  pointer_size : PointerSize
  address : Nat
  offsets : Offsets
deriving DecidableEq

/-- The remote-process oracle consumed by `SceneManager::attach`:
module lookup, PE header reads, the four signature scans over the module
range, and the raw reads. Addresses are `Nat` (u64 values); `read_i32` is
the signed 32-bit displacement read of the 64-bit path. `none` is a failed
lookup, scan or read. -/
structure AttachEnv where
  unity_player_address : Option Nat
  size_of_image : Option Nat
  machine_type : Option MachineType
  scan_64 : Nat × Nat → Option Nat
  scan_32_1 : Nat × Nat → Option Nat
  scan_32_2 : Nat × Nat → Option Nat
  scan_32_3 : Nat × Nat → Option Nat
  read_i32 : Nat → Option Int
  read_addr32 : Nat → Option Nat
  read_pointer : Nat → PointerSize → Option Nat

/-- The `base_address` if-chain of `SceneManager::attach`
(`src/src/scene_manager.rs` lines 39–50): on the 64-bit path the matched
instruction's displacement field sits 7 bytes past the signature hit; the
candidate is that field's address plus 4 (the displacement length) plus the
signed 32-bit displacement read there, wrapping as a u64. The three 32-bit
signatures are tried in order, each reading a 32-bit absolute address at a
signature-specific offset (`addr.add_signed(-4)` truncates at zero like the
u64 wrapping subtraction only for hits below 4, which cannot occur for a
real module base). -/
def scene_manager_base_address (env : AttachEnv) (unity_player : Nat × Nat)
    (pointer_size : PointerSize) : Option Nat :=
  if pointer_size = .bit64 then
    match env.scan_64 unity_player with
    | some hit =>
      let addr := hit + 7
      (env.read_i32 addr).map fun disp => ((((addr : Int) + 0x4 + disp) % 2 ^ 64).toNat)
    | none => none
  else
    match env.scan_32_1 unity_player with
    | some addr => env.read_addr32 (addr + 5)
    | none =>
      match env.scan_32_2 unity_player with
      | some addr => env.read_addr32 (addr - 4)
      | none =>
        match env.scan_32_3 unity_player with
        | some addr => env.read_addr32 (addr + 7)
        | none => none

/-- The pointer-width selection of `SceneManager::attach`
(`src/src/scene_manager.rs` lines 32–35): `X86_64` selects 64-bit pointers,
any other machine type selects 32-bit. -/
def machine_pointer_size : MachineType → PointerSize
  | .x86_64 => .bit64
  | .other => .bit32

/-- `SceneManager::attach` from `src/src/scene_manager.rs` lines 19–66:
resolve the UnityPlayer module and its image size, select the pointer width
from the PE machine type, compute the candidate base address from the
signature scans, dereference it once and reject a null result; only then is
a `SceneManager` produced, caching the dereferenced address. -/
def SceneManager.attach (env : AttachEnv) : Option SceneManager :=
  env.unity_player_address.bind fun module_address =>
    env.size_of_image.bind fun size =>
      env.machine_type.bind fun machine =>
        (scene_manager_base_address env (module_address, size)
            (machine_pointer_size machine)).bind fun base_address =>
          (Option.filter (fun val => val != 0)
              (env.read_pointer base_address (machine_pointer_size machine))).map
            fun address =>
              { pointer_size := machine_pointer_size machine, address := address,
                offsets := Offsets.new (machine_pointer_size machine) }

/-! ## Helper lemmas -/

/-- The quest-split loop is the ordered first-match search: it returns true
exactly when some element of the current snapshot has its toggle enabled,
an old completion flag that is present and false, and a true current flag. -/
lemma quest_split_loop_eq_any (split_setting : Nat → Bool) (old : List QuestData)
    (l : List QuestData) :
    quest_split_loop split_setting old l =
      l.any fun i =>
        split_setting i.quest_id &&
          (is_some_and_not (old_complete old i.quest_id) && i.complete) := by
  induction l with
  | nil => rfl
  | cons i rest ih =>
    rw [List.any_cons, quest_split_loop, ih]
    cases hs : split_setting i.quest_id <;>
      cases hc : is_some_and_not (old_complete old i.quest_id) && i.complete <;> simp [hs, hc]

/-- Reading every index of a list through `get?` and a partial function is
the same as filter-mapping the list itself. -/
lemma filterMap_get_range {T U : Type} (f : U → Option T) (l : List U) :
    (List.range l.length).filterMap (fun i => (l.get? i).bind f) = l.filterMap f := by
  induction l with
  | nil => rfl
  | cons x xs ih =>
    rw [List.length_cons, List.range_succ_eq_map, List.filterMap_cons, List.filterMap_map]
    have hcomp : ((fun i => ((x :: xs).get? i).bind f) ∘ Nat.succ) =
        fun i => (xs.get? i).bind f := by
      funext i
      simp
    rw [hcomp, ih]
    cases hx : f x <;> simp [List.filterMap_cons, hx]

/-- After an update with value `v`, a boolean watcher reports a transition to
true exactly when its previously stored current value was false and `v` is
true (false in particular when no pair was populated before). -/
lemma pair_changed_to_update (w : Watcher Bool) (v : Bool) :
    pair_changed_to (w.update_infallible v) true =
      ((w.pair.any fun p => !p.current) && v) := by
  cases hw : w.pair with
  | none =>
    simp only [pair_changed_to, Watcher.update_infallible, hw, Option.any, Pair.changed_to]
    cases v <;> rfl
  | some p =>
    simp only [pair_changed_to, Watcher.update_infallible, hw, Option.any, Pair.changed_to]
    cases hp : p.current <;> cases v <;> rfl

/-- An update always leaves a populated pair whose current slot holds the
value just supplied. -/
lemma update_infallible_pair {T : Type} (w : Watcher T) (v : T) :
    ∃ p, (w.update_infallible v).pair = some p ∧ p.current = v := by
  cases hw : w.pair with
  | none =>
    exact ⟨{ old := v, current := v }, by simp [Watcher.update_infallible, hw], rfl⟩
  | some p =>
    exact ⟨{ old := p.current, current := v }, by simp [Watcher.update_infallible, hw], rfl⟩

/-- `Option.any` is the witness-existence predicate. -/
lemma option_any_eq_true {A : Type} (p : A → Bool) (o : Option A) :
    o.any p = true ↔ ∃ a, o = some a ∧ p a = true := by
  cases o <;> simp [Option.any]

/-! ## Claim theorems -/

/-- A watchers state whose primary quest list holds an element (id 32,
complete) in the current snapshot that is absent from the old snapshot. -/
def absent_old_watchers : Watchers :=
  { quest_list :=
      { pair := some { old := [], current := [{ quest_id := 32, complete := true }] } } }

/-- C1, counterexample: with default settings the toggle for quest id 32
(`find_crow`) is enabled and the element's completion flag is absent from
the old snapshot and true in the current one — yet `split` returns false,
because the code requires the old flag to be present and false
(`old.is_some_and(|val| !val)`), refuting the claim's "(or absent)" case. -/
theorem split_absent_old_counterexample :
    absent_old_watchers.quest_list.pair =
        some { old := [], current := [{ quest_id := 32, complete := true }] } ∧
    quest_list_setting {} 32 = true ∧
    old_complete [] 32 = none ∧
    split absent_old_watchers {} = false :=
  ⟨rfl, rfl, rfl, rfl⟩

/-- C1, amended: for every element of the current primary quest-list
snapshot whose toggle is enabled, whose completion flag was present and
false in the old snapshot and is true in the current snapshot, `split`
returns true (the loop short-circuits at the first such element by
construction of `quest_split_loop`). -/
theorem split_fires_on_quest_completion (w : Watchers) (s : Settings)
    (pr : Pair (List QuestData)) (i : QuestData)
    (hp : w.quest_list.pair = some pr)
    (hmem : i ∈ pr.current)
    (htoggle : quest_list_setting s i.quest_id = true)
    (hold : old_complete pr.old i.quest_id = some false)
    (hcur : i.complete = true) :
    split w s = true := by
  have hloop : quest_split_loop (quest_list_setting s) pr.old pr.current = true := by
    rw [quest_split_loop_eq_any]
    exact List.any_eq_true.mpr ⟨i, hmem, by simp [htoggle, hold, is_some_and_not, hcur]⟩
  simp [split, hp, hloop]

/-- A watchers state with the quest id 32 completion flag false in the old
primary snapshot and true in the current one. -/
def quest_transition_watchers : Watchers :=
  { quest_list :=
      { pair := some { old := [{ quest_id := 32, complete := false }],
                       current := [{ quest_id := 32, complete := true }] } } }

/-- C1, witness: quest id 32 transitions false to true with its default
toggle (`find_crow`) enabled, and `split` fires. -/
theorem split_fires_on_quest_completion_witness :
    split quest_transition_watchers {} = true :=
  split_fires_on_quest_completion quest_transition_watchers {}
    { old := [{ quest_id := 32, complete := false }],
      current := [{ quest_id := 32, complete := true }] }
    { quest_id := 32, complete := true }
    rfl (List.mem_singleton.mpr rfl) rfl rfl rfl

/-- C2: the secondary (cat-chievement) collection is evaluated by `split`
independently of the primary one — whenever some element of the secondary
current snapshot has its toggle enabled and its completion flag transitions
from false (present) in the old snapshot to true in the current one, `split`
returns true, for every state of the primary list and of all other
triggers. -/
theorem split_fires_on_catchievement_completion (w : Watchers) (s : Settings)
    (pr : Pair (List QuestData)) (i : QuestData)
    (hp : w.quest_secondary_list.pair = some pr)
    (hmem : i ∈ pr.current)
    (htoggle : catchievement_setting s i.quest_id = true)
    (hold : old_complete pr.old i.quest_id = some false)
    (hcur : i.complete = true) :
    split w s = true := by
  have hloop : quest_split_loop (catchievement_setting s) pr.old pr.current = true := by
    rw [quest_split_loop_eq_any]
    exact List.any_eq_true.mpr ⟨i, hmem, by simp [htoggle, hold, is_some_and_not, hcur]⟩
  simp [split, hp, hloop]

/-- A watchers state where only the secondary list holds a transition
(cat-chievement id 1, false to true); every other watcher is unpopulated. -/
def catchievement_transition_watchers : Watchers :=
  { quest_secondary_list :=
      { pair := some { old := [{ quest_id := 1, complete := false }],
                       current := [{ quest_id := 1, complete := true }] } } }

/-- C2, witness: cat-chievement id 1 (`hello_everyone`, enabled) transitions
false to true while the primary list watcher is unpopulated and no other
trigger fires, and `split` returns true. -/
theorem split_fires_on_catchievement_completion_witness :
    split catchievement_transition_watchers { hello_everyone := true } = true :=
  split_fires_on_catchievement_completion catchievement_transition_watchers
    { hello_everyone := true }
    { old := [{ quest_id := 1, complete := false }],
      current := [{ quest_id := 1, complete := true }] }
    { quest_id := 1, complete := true }
    rfl (List.mem_singleton.mpr rfl) rfl rfl rfl

/-- C3: for every watcher and every value, `changed_to` reports false
immediately after the very first update (no pair populated before),
regardless of the value supplied — so no transition-based decision can fire
from a watcher pair's very first population. -/
theorem changed_to_false_on_first_update {T : Type} [BEq T] [LawfulBEq T]
    (w : Watcher T) (v target : T) (h : w.pair = none) :
    pair_changed_to (w.update_infallible v) target = false := by
  simp only [pair_changed_to, Watcher.update_infallible, h, Option.any, Pair.changed_to]
  by_cases hv : v = target
  · simp [hv]
  · simp [hv, bne_iff_ne, hv]

/-- C3, witness: a fresh boolean watcher updated once with true does not
report a transition to true. -/
theorem changed_to_false_on_first_update_witness :
    pair_changed_to (({} : Watcher Bool).update_infallible true) true = false :=
  changed_to_false_on_first_update {} true true rfl

/-- C4: after a tick, `start` returns true exactly when the auto-start
toggle is enabled and the start-trigger pair transitioned to true this tick;
the trigger's new value is (current scene name equals "Level_X") AND (the
allow-player-shake pair transitioned false to true this tick), so `start`
is true iff the auto-start toggle is on, the previously stored trigger value
was not true, the scene read succeeded with name "Level_X", the previously
stored shake value was false, and this tick's shake read is nonzero. -/
theorem start_iff_scene_and_shake (inp : TickInput) (w : Watchers) (s : Settings) :
    start (update_loop inp w) s = true ↔
      s.start = true ∧
      (w.start_trigger.pair.any fun p => !p.current) = true ∧
      (inp.current_scene.any fun scene => get_scene_name scene == "Level_X") = true ∧
      (w.allow_player_shake.pair.any fun p => !p.current) = true ∧
      read_nonzero inp.trashcan_allow_shake = true := by
  simp only [start, update_loop, pair_changed_to_update, Bool.and_eq_true, and_assoc]

/-- C5: `CSharpList::iter` degrades to the empty sequence — it is a total
function, never an error — whenever the header read fails, the element
count is zero, the element-array pointer is null, or the bulk slot read
fails (in particular for implausibly large counts whose bulk read fails). -/
theorem csharp_iter_degrades_to_empty {T : Type} (self : CSharpList)
    (process : ProcessModel T) :
    (process.read_header self.address = none → CSharpList.iter self process = []) ∧
    (∀ h, process.read_header self.address = some h → h.count = 0 →
      CSharpList.iter self process = []) ∧
    (∀ h, process.read_header self.address = some h → h.data_pointer = 0 →
      CSharpList.iter self process = []) ∧
    (∀ h, process.read_header self.address = some h →
      process.read_vec (h.data_pointer + 0x20) h.count = none →
      CSharpList.iter self process = []) := by
  refine ⟨?_, ?_, ?_, ?_⟩
  · intro hh
    simp [CSharpList.iter, hh, Option.filter]
  · intro h hh hc
    simp [CSharpList.iter, hh, hc, Option.filter]
  · intro h hh hdp
    simp [CSharpList.iter, hh, hdp, Option.filter]
  · intro h hh hv
    by_cases hdp : h.data_pointer = 0
    · simp [CSharpList.iter, hh, hdp, Option.filter]
    · by_cases hc : h.count = 0
      · simp [CSharpList.iter, hh, hc, Option.filter]
      · simp [CSharpList.iter, hh, hdp, hc, hv, Option.filter]

/-- C6: with a successfully read header of count N and a successful bulk
slot read (which yields exactly N slots), `iter` yields exactly the records
whose per-element read succeeds, in slot (index) order — a failed element
read silently drops that element — and the yielded sequence has length at
most N. -/
theorem csharp_iter_yields_surviving_records {T : Type} (self : CSharpList)
    (process : ProcessModel T) (h : ListHeader) (slots : List Nat)
    (hh : process.read_header self.address = some h)
    (hdp : h.data_pointer ≠ 0)
    (hv : process.read_vec (h.data_pointer + 0x20) h.count = some slots)
    (hl : slots.length = h.count) :
    CSharpList.iter self process = slots.filterMap process.read_elem ∧
      (CSharpList.iter self process).length ≤ h.count := by
  by_cases hc : h.count = 0
  · have hslots : slots = [] := List.eq_nil_of_length_eq_zero (by rw [hl, hc])
    subst hslots
    simp [CSharpList.iter, hh, hc, Option.filter]
  · have e1 : Option.filter (fun val => val != 0)
        (Option.map ListHeader.data_pointer (some h)) = some h.data_pointer := by
      simp [Option.filter, hdp]
    have e2 : Option.filter (fun val => val != 0)
        (Option.map ListHeader.count (some h)) = some h.count := by
      simp [Option.filter, hc]
    have hiter : CSharpList.iter self process = slots.filterMap process.read_elem := by
      simp only [CSharpList.iter, hh, e1, e2, hv, Option.getD_some, Option.some_bind]
      rw [← hl, filterMap_get_range]
    refine ⟨hiter, ?_⟩
    rw [hiter, ← hl]
    exact List.length_filterMap_le process.read_elem slots

/-- A concrete process: a list of two slots at address 0, where the first
element record reads back as 7 and the second element read fails. -/
def sample_process : ProcessModel Nat :=
  { read_header := fun a => if a = 0 then some { data_pointer := 0x100, count := 2 } else none
    read_vec := fun a n => if a = 0x120 ∧ n = 2 then some [0xA, 0xB] else none
    read_elem := fun a => if a = 0xA then some 7 else none }

/-- C6, witness: both slots are visited in order; the corrupted second
element is dropped and the result is bounded by the count. -/
theorem csharp_iter_yields_surviving_records_witness :
    CSharpList.iter { address := 0 } sample_process =
        List.filterMap sample_process.read_elem [0xA, 0xB] ∧
      (CSharpList.iter { address := 0 } sample_process).length ≤ 2 :=
  csharp_iter_yields_surviving_records { address := 0 } sample_process
    { data_pointer := 0x100, count := 2 } [0xA, 0xB] rfl (by decide) rfl rfl

/-- C7: the reset decision is the constant false function of all its
inputs. -/
theorem reset_always_false (w : Watchers) (s : Settings) : reset w s = false :=
  rfl

/-- C8: `is_loading` always returns some boolean, never none; the boolean is
true exactly when the loading watcher's pair is populated with current value
true, and before the loading watcher's first population it is some false. -/
theorem is_loading_total (w : Watchers) (s : Settings) :
    (is_loading w s).isSome = true ∧
    (is_loading w s = some true ↔ ∃ p, w.is_loading.pair = some p ∧ p.current = true) ∧
    (w.is_loading.pair = none → is_loading w s = some false) := by
  refine ⟨rfl, ?_, ?_⟩
  · cases hw : w.is_loading.pair with
    | none => simp [is_loading, hw]
    | some p => simp [is_loading, hw, Option.any]
  · intro hw
    simp [is_loading, hw]

/-- C9: `SceneManager::attach` produces a scene manager only by caching a
non-null address obtained from the single dereference of the computed
candidate base; if that dereference fails or yields null (after the
candidate was computed), `attach` returns none; and on the 64-bit path the
candidate is the displacement field's address (signature hit plus 7) plus 4
(the displacement length) plus the signed 32-bit displacement read there,
wrapping as a u64. -/
theorem scene_manager_attach_safety (env : AttachEnv) :
    (∀ sm, SceneManager.attach env = some sm →
      sm.address ≠ 0 ∧
      ∃ unity_player base,
        scene_manager_base_address env unity_player sm.pointer_size = some base ∧
        env.read_pointer base sm.pointer_size = some sm.address) ∧
    (∀ module_address size machine base,
      env.unity_player_address = some module_address →
      env.size_of_image = some size →
      env.machine_type = some machine →
      scene_manager_base_address env (module_address, size) (machine_pointer_size machine) =
        some base →
      (env.read_pointer base (machine_pointer_size machine) = none ∨
        env.read_pointer base (machine_pointer_size machine) = some 0) →
      SceneManager.attach env = none) ∧
    (∀ unity_player hit disp,
      env.scan_64 unity_player = some hit →
      env.read_i32 (hit + 7) = some disp →
      scene_manager_base_address env unity_player PointerSize.bit64 =
        some ((((hit : Int) + 7 + 0x4 + disp) % 2 ^ 64).toNat)) := by
  refine ⟨?_, ?_, ?_⟩
  · intro sm hsm
    obtain ⟨ps, addr, offs⟩ := sm
    cases hu : env.unity_player_address with
    | none => simp [SceneManager.attach, hu] at hsm
    | some module_address =>
      cases hsz : env.size_of_image with
      | none => simp [SceneManager.attach, hu, hsz] at hsm
      | some size =>
        cases hm : env.machine_type with
        | none => simp [SceneManager.attach, hu, hsz, hm] at hsm
        | some machine =>
          cases hb : scene_manager_base_address env (module_address, size)
              (machine_pointer_size machine) with
          | none => simp [SceneManager.attach, hu, hsz, hm, hb] at hsm
          | some base =>
            cases hr : Option.filter (fun val => val != 0)
                (env.read_pointer base (machine_pointer_size machine)) with
            | none => simp [SceneManager.attach, hu, hsz, hm, hb, hr] at hsm
            | some address =>
              obtain ⟨hread, hnz⟩ := Option.filter_eq_some.mp hr
              simp only [SceneManager.attach, hu, hsz, hm, hb, hr, Option.some_bind,
                Option.map_some', Option.some.injEq, SceneManager.mk.injEq] at hsm
              obtain ⟨hps, haddr, hoffs⟩ := hsm
              subst hps
              subst haddr
              exact ⟨by simpa using hnz, (module_address, size), base, hb,
                by simpa [Option.mem_def] using hread⟩
  · intro module_address size machine base h1 h2 h3 hb hfail
    rcases hfail with hr | hr <;>
      simp [SceneManager.attach, h1, h2, h3, hb, hr, Option.filter]
  · intro unity_player hit disp h1 h2
    simp only [scene_manager_base_address, h1, h2, if_true, reduceIte, Option.map_some']
    congr 2

/-- C10: each tick the loading watcher's new current value is the
disjunction — scene name equals "Loading", or equals "MainMenu_LKBC", or
the save system's loading byte is nonzero, or the teleporting byte is
nonzero — where every failed read counts as false. -/
theorem is_loading_watcher_disjunction (inp : TickInput) (w : Watchers) :
    ∃ p, (update_loop inp w).is_loading.pair = some p ∧
      (p.current = true ↔
        (∃ scene, inp.current_scene = some scene ∧
          (get_scene_name scene = "Loading" ∨ get_scene_name scene = "MainMenu_LKBC")) ∨
        (∃ v, inp.is_loading_save = some v ∧ v ≠ 0) ∨
        (∃ v, inp.is_teleporting = some v ∧ v ≠ 0)) := by
  obtain ⟨p, hp, hc⟩ := update_infallible_pair w.is_loading
    ((inp.current_scene.any fun scene =>
        get_scene_name scene == "Loading" || get_scene_name scene == "MainMenu_LKBC") ||
      read_nonzero inp.is_loading_save || read_nonzero inp.is_teleporting)
  refine ⟨p, by simpa [update_loop] using hp, ?_⟩
  rw [hc]
  simp only [Bool.or_eq_true, read_nonzero, option_any_eq_true, beq_iff_eq, bne_iff_ne,
    ne_eq, or_assoc]

end LKBC
